import Mathlib

/-!
Shallow embedding of the document-rag-system client
(`src/frontend/src/App.js`, which contains several revisions of the same
React component) and, for the one claim that concerns the absent backend
engine, a model of the Indexing Pipeline taken from the specification.

The client handlers are embedded as pure functions: the outcome of each
`axios` call (resolved value, or rejection with `error.message`) is passed
in as an argument, and each handler returns a trace recording the HTTP
requests it issued, the UI message it surfaced, and the component state it
left behind.
-/

namespace DocumentRag

/-- A file selected in the browser; only its name is observable to the model. -/
structure File where
  name : String
deriving DecidableEq, Repr

/-- The hardcoded production Cloud Run URL from `App.js` line 6. -/
def productionUrl : String :=
  "https://document-rag-system-511830906232.europe-west1.run.app"

/-- `const API_BASE_URL = process.env.REACT_APP_API_URL || '…run.app'`.
The environment variable is `none` when unset; JavaScript `||` also treats
the empty string as falsy, so an env var set to `""` falls back. -/
def API_BASE_URL (env : Option String) : String :=
  match env with
  | none => productionUrl
  | some s => if s = "" then productionUrl else s

/-- Hex digit (uppercase) for percent-encoding. -/
def hexDigitChar (n : Nat) : Char :=
  if n < 10 then Char.ofNat (48 + n) else Char.ofNat (55 + n)

/-- UTF-8 byte sequence of a code point, as used by `encodeURIComponent`. -/
def utf8Bytes (n : Nat) : List Nat :=
  if n < 128 then [n]
  else if n < 2048 then [192 + n / 64, 128 + n % 64]
  else if n < 65536 then [224 + n / 4096, 128 + (n / 64) % 64, 128 + n % 64]
  else [240 + n / 262144, 128 + (n / 4096) % 64, 128 + (n / 64) % 64, 128 + n % 64]

/-- Characters `encodeURIComponent` leaves unescaped: alphanumerics and
`- _ . ! ~ * ' ( )`. -/
def isUnreservedUriChar (c : Char) : Bool :=
  c.isAlpha || c.isDigit || c = '-' || c = '_' || c = '.' || c = '!' ||
    c = '~' || c = '*' || c = '\'' || c = '(' || c = ')'

/-- `%XX` escape of one byte. -/
def percentEncodeByte (b : Nat) : String :=
  String.mk ['%', hexDigitChar (b / 16), hexDigitChar (b % 16)]

/-- JavaScript `encodeURIComponent`: unreserved characters pass through,
every other character is percent-encoded byte-by-byte in UTF-8. -/
def encodeURIComponent (s : String) : String :=
  s.data.foldl
    (fun acc c =>
      if isUnreservedUriChar c then acc.push c
      else acc ++ String.join ((utf8Bytes c.toNat).map percentEncodeByte))
    ""

/-- An HTTP request issued through `axios`, as observable in the source:
method, full URL, query parameters (in the order the `params` object lists
them), and whether a multipart file body is attached. -/
structure Request where
  method : String
  url : String
  params : List (String × String)
  multipart : Bool
  fileBody : Option File
deriving DecidableEq, Repr

/-- Outcome of an awaited `axios` call: the resolved response data, or a
thrown error carrying `error.message`. -/
inductive AxiosResult (α : Type) where
  | success (data : α)
  | failure (message : String)
deriving DecidableEq, Repr

/-- Response body of `POST /upload` as the client reads it. -/
structure UploadResponse where
  blob_name : String
deriving DecidableEq, Repr

/-- Response body of `POST /api/files/{blob_name}/embed`. -/
structure EmbedResponse where
  indexed : Bool
deriving DecidableEq, Repr

/-- Response body of `POST /api/ask` as the client reads it. -/
structure AskResponse where
  answer : String
deriving DecidableEq, Repr

/-- The upload request of `handleFileUpload`:
`axios.post(API_BASE_URL + "/upload", formData, {headers: …})` — a multipart
POST with no query parameters. -/
def uploadRequest (env : Option String) (f : File) : Request :=
  { method := "POST"
    url := API_BASE_URL env ++ "/upload"
    params := []
    multipart := true
    fileBody := some f }

/-- The embed request of `handleFileUpload`:
`axios.post(API_BASE_URL + "/api/files/" + encodeURIComponent(blobName) + "/embed",
null, {params: {namespace: sessionNamespace}})`. -/
def embedRequest (env : Option String) (blobName nsp : String) : Request :=
  { method := "POST"
    url := API_BASE_URL env ++ "/api/files/" ++ encodeURIComponent blobName ++ "/embed"
    params := [("namespace", nsp)]
    multipart := false
    fileBody := none }

/-- The ask request of `handleAsk`:
`axios.post(API_BASE_URL + "/api/ask", null,
{params: {question, top_k: 5, namespace: sessionNamespace}})`. -/
def askRequest (env : Option String) (question nsp : String) : Request :=
  { method := "POST"
    url := API_BASE_URL env ++ "/api/ask"
    params := [("question", question), ("top_k", "5"), ("namespace", nsp)]
    multipart := false
    fileBody := none }

/-- Trace of one invocation of the original (`alert`-based) `handleFileUpload`:
requests issued in order, the alert surfaced, and the final `uploading` flag
(reset in `finally`). -/
structure UploadTrace where
  requests : List Request
  alertMessage : Option String
  uploadingFinal : Bool
deriving DecidableEq, Repr

/-- `handleFileUpload` (original revision, `App.js` lines 25–52): guard on a
missing file, POST `/upload`, read `blob_name`, POST the embed request, then
alert success; any thrown error is caught and alerted; `finally` resets
`uploading`. -/
def handleFileUpload (env : Option String) (file : Option File) (nsp : String)
    (uploadOutcome : AxiosResult UploadResponse)
    (embedOutcome : AxiosResult EmbedResponse) : UploadTrace :=
  match file with
  | none =>
      { requests := []
        alertMessage := some "Please select a file first."
        uploadingFinal := false }
  | some f =>
      match uploadOutcome with
      | .failure msg =>
          { requests := [uploadRequest env f]
            alertMessage := some ("❌ Error uploading or embedding file: " ++ msg)
            uploadingFinal := false }
      | .success resp =>
          match embedOutcome with
          | .failure msg =>
              { requests := [uploadRequest env f, embedRequest env resp.blob_name nsp]
                alertMessage := some ("❌ Error uploading or embedding file: " ++ msg)
                uploadingFinal := false }
          | .success _ =>
              { requests := [uploadRequest env f, embedRequest env resp.blob_name nsp]
                alertMessage := some "✅ File uploaded and indexed successfully!"
                uploadingFinal := false }

/-- Trace of the modern `handleFileUpload` revision, which surfaces messages
through `showMessage(type, text)` and clears the selected file on success. -/
structure UploadTraceM where
  requests : List Request
  message : Option (String × String)
  fileAfter : Option File
  uploadingFinal : Bool
deriving DecidableEq, Repr

/-- `handleFileUpload` (modern revisions): same request sequence as the
original, but messages go through `showMessage` and `setFile(null)` runs on
success. -/
def handleFileUploadM (env : Option String) (file : Option File) (nsp : String)
    (uploadOutcome : AxiosResult UploadResponse)
    (embedOutcome : AxiosResult EmbedResponse) : UploadTraceM :=
  match file with
  | none =>
      { requests := []
        message := some ("error", "Please select a file first.")
        fileAfter := none
        uploadingFinal := false }
  | some f =>
      match uploadOutcome with
      | .failure msg =>
          { requests := [uploadRequest env f]
            message := some ("error", "Error uploading or embedding file: " ++ msg)
            fileAfter := some f
            uploadingFinal := false }
      | .success resp =>
          match embedOutcome with
          | .failure msg =>
              { requests := [uploadRequest env f, embedRequest env resp.blob_name nsp]
                message := some ("error", "Error uploading or embedding file: " ++ msg)
                fileAfter := some f
                uploadingFinal := false }
          | .success _ =>
              { requests := [uploadRequest env f, embedRequest env resp.blob_name nsp]
                message := some ("success", "File uploaded and indexed successfully!")
                fileAfter := none
                uploadingFinal := false }

/-- Component state read by `handleAsk`. -/
structure AskState where
  question : String
  answer : String
  loading : Bool
deriving DecidableEq, Repr

/-- Trace of one invocation of the original `handleAsk`. -/
structure AskTrace where
  requests : List Request
  answer : String
  loading : Bool
  alertMessage : Option String
deriving DecidableEq, Repr

/-- `handleAsk` (original revision, `App.js` lines 55–71):
`if (!question) return alert(…)` — only the empty string is falsy — then POST
the ask request; on success `setAnswer(res.data.answer)`, on error
`setAnswer("Error getting answer: " + error.message)`; `setLoading(false)`
runs after the try/catch on both paths. -/
def handleAsk (env : Option String) (nsp : String) (st : AskState)
    (outcome : AxiosResult AskResponse) : AskTrace :=
  if st.question = "" then
    { requests := []
      answer := st.answer
      loading := st.loading
      alertMessage := some "Please enter a question." }
  else
    match outcome with
    | .success resp =>
        { requests := [askRequest env st.question nsp]
          answer := resp.answer
          loading := false
          alertMessage := none }
    | .failure msg =>
        { requests := [askRequest env st.question nsp]
          answer := "Error getting answer: " ++ msg
          loading := false
          alertMessage := none }

/-- The whitespace characters JavaScript `String.prototype.trim` strips
(ASCII subset; the questions at issue contain only ASCII whitespace). -/
def isJsWhitespace (c : Char) : Bool :=
  c = ' ' || c = '\t' || c = '\n' || c = '\r' || c = '\x0b' || c = '\x0c'

/-- JavaScript `question.trim()`: strip leading and trailing whitespace. -/
def jsTrim (s : String) : String :=
  String.mk (((s.data.dropWhile isJsWhitespace).reverse.dropWhile isJsWhitespace).reverse)

/-- Trace of the modern `handleAsk` revision (messages via `showMessage`). -/
structure AskTraceM where
  requests : List Request
  answer : String
  loading : Bool
  message : Option (String × String)
deriving DecidableEq, Repr

/-- `handleAsk` (modern revisions, guard `if (!question.trim())`): a question
that is empty or all whitespace is rejected with an error message before any
request is sent; otherwise identical to the original. -/
def handleAskTrim (env : Option String) (nsp : String) (st : AskState)
    (outcome : AxiosResult AskResponse) : AskTraceM :=
  if jsTrim st.question = "" then
    { requests := []
      answer := st.answer
      loading := st.loading
      message := some ("error", "Please enter a question.") }
  else
    match outcome with
    | .success resp =>
        { requests := [askRequest env st.question nsp]
          answer := resp.answer
          loading := false
          message := none }
    | .failure msg =>
        { requests := [askRequest env st.question nsp]
          answer := "Error getting answer: " ++ msg
          loading := false
          message := none }

/-- The `useEffect` namespace initialisation (`App.js` lines 16–23): read
`localStorage.getItem("sessionNamespace")` (`none` when absent); if the
stored value is absent or empty (`if (!ns)`), generate a fresh UUID and
persist it. Returns the session namespace used and the value left in
localStorage. -/
def initNamespace (stored : Option String) (freshUuid : String) : String × String :=
  match stored with
  | none => (freshUuid, freshUuid)
  | some ns => if ns = "" then (freshUuid, freshUuid) else (ns, ns)

/-- File-selection state of the modern revisions (selected file + drag
highlight). -/
structure DragState where
  file : Option File
  dragOver : Bool
deriving DecidableEq, Repr

/-- `handleDrop`: prevent default, clear the drag highlight, and accept
`e.dataTransfer.files[0]` whenever one is present — no extension check. -/
def handleDrop (dropped : Option File) (st : DragState) : DragState :=
  match dropped with
  | some f => { file := some f, dragOver := false }
  | none => { st with dragOver := false }

/-- The `accept` attribute on the hidden file input of the modern revisions. -/
def fileInputAccept : String := ".pdf,.docx,.txt"

/-- The extensions the upload UI advertises. -/
def supportedExtensions : List String := [".pdf", ".docx", ".txt"]

/-- Whether a filename carries one of the advertised extensions. -/
def hasSupportedExtension (name : String) : Bool :=
  supportedExtensions.any (fun ext => ext.data.isSuffixOf name.data)

/-- Modelled from the spec: a Document Registry row — the backend engine is
absent from the repository, so this follows §3 of the specification
(`{document_id, blob_name, …, namespace, indexed}`). -/
structure RegEntry where
  nspace : String
  blob_name : String
  document_id : Nat
  indexed : Bool
deriving DecidableEq, Repr

/-- Modelled from the spec: a Vector Index entry, the projection of a Chunk
(`{document_id, namespace, text, sequence_index}`); the embedding vector is
determined by the text and is not needed for the idempotence claim. -/
structure VChunk where
  nspace : String
  document_id : Nat
  sequence_index : Nat
  text : String
deriving DecidableEq, Repr

/-- Modelled from the spec: the two durable stores the Indexing Pipeline
touches — the Document Registry and the per-namespace Vector Index. -/
structure EngineState where
  registry : List RegEntry
  vectorIndex : List VChunk
deriving DecidableEq, Repr

/-- Registry lookup by namespace and blob name (first matching row). -/
def findDoc : List RegEntry → String → String → Option RegEntry
  | [], _, _ => none
  | e :: es, nsp, blob =>
    if e.nspace == nsp && e.blob_name == blob then some e else findDoc es nsp blob

/-- Flip the `indexed` flag of the matching Registry row. -/
def setIndexed (reg : List RegEntry) (nsp blob : String) : List RegEntry :=
  reg.map (fun e =>
    if e.nspace == nsp && e.blob_name == blob then { e with indexed := true } else e)

/-- Remove every Vector Index entry owned by one document. -/
def removeDocChunks (vi : List VChunk) (nsp : String) (docId : Nat) : List VChunk :=
  vi.filter (fun c => !(c.nspace == nsp && c.document_id == docId))

/-- Modelled from the spec: overwrite-safe batch upsert (§4.2 — "upsert is
overwrite-safe, not additive"): existing entries for the document are
replaced by the new batch, with `sequence_index` preserving chunk order. -/
def upsertChunks (vi : List VChunk) (nsp : String) (docId : Nat)
    (texts : List String) : List VChunk :=
  removeDocChunks vi nsp docId ++
    texts.enum.map (fun p =>
      { nspace := nsp, document_id := docId, sequence_index := p.1, text := p.2 })

/-- Errors of the Indexing Pipeline relevant to the idempotence claim. -/
inductive EmbedError where
  | notFound
deriving DecidableEq, Repr

/-- Modelled from the spec: the Indexing Pipeline (§4.2), absent from the
repository. `extractChunks` stands for Blob Store fetch → Text Extractor →
Chunker, a pure function of the blob. The pipeline checks the Registry
`indexed` flag first: an already-indexed document is a no-op success;
otherwise it upserts the chunk batch and flips `indexed := true`. -/
def embed (extractChunks : String → List String) (nsp blob : String)
    (s : EngineState) : Except EmbedError EngineState :=
  match findDoc s.registry nsp blob with
  | none => .error .notFound
  | some doc =>
      if doc.indexed then .ok s
      else
        .ok { registry := setIndexed s.registry nsp blob
              vectorIndex :=
                upsertChunks s.vectorIndex nsp doc.document_id (extractChunks blob) }

/-!
## Theorems
-/

/-- C1. The claim says every request — the upload in `handleFileUpload` in
particular — carries the `namespace` query parameter. Evaluating the client:
whenever `handleFileUpload` runs with a selected file, the first request it
issues is the upload request, whose query-parameter list is empty — no
`namespace` is sent — while the embed and ask requests do carry
`("namespace", nsp)`. This exhibits the divergence of the code from the
claim (and from the spec's requirement that all endpoints receive
`namespace`). -/
theorem upload_request_omits_namespace (env : Option String) (f : File)
    (nsp blob q : String) (uo : AxiosResult UploadResponse)
    (eo : AxiosResult EmbedResponse) :
    (handleFileUpload env (some f) nsp uo eo).requests.head? =
      some (uploadRequest env f) ∧
    (uploadRequest env f).params = [] ∧
    ("namespace", nsp) ∈ (embedRequest env blob nsp).params ∧
    ("namespace", nsp) ∈ (askRequest env q nsp).params := by
  refine ⟨?_, rfl, ?_, ?_⟩
  · cases uo <;> cases eo <;> rfl
  · simp [embedRequest]
  · simp [askRequest]

/-- C2. After every successful upload, the client issues exactly one embed
request — a POST to `/api/files/{blob_name}/embed` with the blob name
URI-encoded in the path and `namespace` as its only query parameter — and
the success alert is shown only on the branch where that embed request
succeeded. -/
theorem upload_success_triggers_embed (env : Option String) (f : File)
    (nsp : String) (resp : UploadResponse) (eo : AxiosResult EmbedResponse) :
    (handleFileUpload env (some f) nsp (.success resp) eo).requests =
      [uploadRequest env f, embedRequest env resp.blob_name nsp] ∧
    (embedRequest env resp.blob_name nsp).method = "POST" ∧
    (embedRequest env resp.blob_name nsp).url =
      API_BASE_URL env ++ "/api/files/" ++ encodeURIComponent resp.blob_name ++ "/embed" ∧
    (embedRequest env resp.blob_name nsp).params = [("namespace", nsp)] ∧
    (handleFileUpload env (some f) nsp (.success resp) eo).alertMessage =
      (match eo with
        | .success _ => some "✅ File uploaded and indexed successfully!"
        | .failure msg => some ("❌ Error uploading or embedding file: " ++ msg)) := by
  cases eo <;> exact ⟨rfl, rfl, rfl, rfl, rfl⟩

/-- C3. Every ask request the client sends is a POST to `/api/ask` whose
query parameters are exactly the question, `top_k = 5` and the session
namespace, in that order, and on success the displayed answer is the
response's `answer` field verbatim. -/
theorem ask_request_shape (env : Option String) (nsp : String) (st : AskState)
    (outcome : AxiosResult AskResponse) (h : st.question ≠ "") :
    (handleAsk env nsp st outcome).requests = [askRequest env st.question nsp] ∧
    (askRequest env st.question nsp).method = "POST" ∧
    (askRequest env st.question nsp).url = API_BASE_URL env ++ "/api/ask" ∧
    (askRequest env st.question nsp).params =
      [("question", st.question), ("top_k", "5"), ("namespace", nsp)] ∧
    (∀ resp : AskResponse,
      (handleAsk env nsp st (.success resp)).answer = resp.answer) := by
  refine ⟨?_, rfl, rfl, rfl, ?_⟩
  · cases outcome <;> simp [handleAsk, h]
  · intro resp
    simp [handleAsk, h]

/-- C3, witness: the theorem instantiated on the concrete question
"What is RAG?" in namespace "ns1". -/
theorem ask_request_shape_witness :
    (("What is RAG?" : String) ≠ "") ∧
    ((handleAsk none "ns1" ⟨"What is RAG?", "", true⟩
        (.success ⟨"An answer."⟩)).requests =
        [askRequest none "What is RAG?" "ns1"] ∧
      (askRequest none "What is RAG?" "ns1").method = "POST" ∧
      (askRequest none "What is RAG?" "ns1").url =
        API_BASE_URL none ++ "/api/ask" ∧
      (askRequest none "What is RAG?" "ns1").params =
        [("question", "What is RAG?"), ("top_k", "5"), ("namespace", "ns1")] ∧
      (∀ resp : AskResponse,
        (handleAsk none "ns1" ⟨"What is RAG?", "", true⟩
          (.success resp)).answer = resp.answer)) :=
  ⟨by decide, ask_request_shape none "ns1" ⟨"What is RAG?", "", true⟩
    (.success ⟨"An answer."⟩) (by decide)⟩

/-- C4, counterexample: in the original revision of `handleAsk` the guard is
`if (!question)`, so the whitespace-only question `" "` — blank in the
claim's sense — passes the guard: a request is sent and no error prompt is
surfaced. -/
theorem blank_question_sent_cex :
    (handleAsk none "ns1" ⟨" ", "", false⟩ (.success ⟨"a"⟩)).requests ≠ [] ∧
    (handleAsk none "ns1" ⟨" ", "", false⟩ (.success ⟨"a"⟩)).alertMessage = none := by
  exact ⟨by decide, rfl⟩

/-- C4, amended: in the trim-guarded revisions of `handleAsk`, every blank
question (empty or all whitespace) is rejected before any request is sent
and an error prompt is surfaced; the original revision gives this guarantee
only for the empty question. -/
theorem blank_question_guard (env : Option String) (nsp : String)
    (st : AskState) (outcome : AxiosResult AskResponse)
    (h : jsTrim st.question = "") :
    (handleAskTrim env nsp st outcome).requests = [] ∧
    (handleAskTrim env nsp st outcome).message =
      some ("error", "Please enter a question.") ∧
    (st.question = "" →
      (handleAsk env nsp st outcome).requests = [] ∧
      (handleAsk env nsp st outcome).alertMessage =
        some "Please enter a question.") := by
  refine ⟨?_, ?_, ?_⟩
  · simp [handleAskTrim, h]
  · simp [handleAskTrim, h]
  · intro he
    exact ⟨by simp [handleAsk, he], by simp [handleAsk, he]⟩

/-- C4, witness: the amended theorem at the whitespace-only question `" "`. -/
theorem blank_question_guard_witness :
    jsTrim " " = "" ∧
    ((handleAskTrim none "ns1" ⟨" ", "old", false⟩ (.failure "x")).requests = [] ∧
      (handleAskTrim none "ns1" ⟨" ", "old", false⟩ (.failure "x")).message =
        some ("error", "Please enter a question.") ∧
      ((" " : String) = "" →
        (handleAsk none "ns1" ⟨" ", "old", false⟩ (.failure "x")).requests = [] ∧
        (handleAsk none "ns1" ⟨" ", "old", false⟩ (.failure "x")).alertMessage =
          some "Please enter a question.")) :=
  ⟨by decide, blank_question_guard none "ns1" ⟨" ", "old", false⟩
    (.failure "x") (by decide)⟩

/-- C5, counterexample: the drag-and-drop path performs no extension check —
dropping `malware.exe` selects it, `malware.exe` has none of the advertised
extensions, and the upload handler then submits it to `/upload`. -/
theorem drop_bypasses_extension_filter_cex :
    (handleDrop (some ⟨"malware.exe"⟩) ⟨none, true⟩).file =
      some ⟨"malware.exe"⟩ ∧
    hasSupportedExtension "malware.exe" = false ∧
    (handleFileUpload none (some ⟨"malware.exe"⟩) "ns1"
        (.success ⟨"b1"⟩) (.success ⟨true⟩)).requests.head? =
      some (uploadRequest none ⟨"malware.exe"⟩) := by
  exact ⟨rfl, by decide, rfl⟩

/-- C5, amended: only the file picker is restricted — its `accept`
attribute names exactly `.pdf,.docx,.txt` — while the drag-and-drop path
accepts any dropped file unchecked, so the backend's unsupported-extension
branch remains reachable from this client. -/
theorem drop_accepts_any_file (f : File) (st : DragState) :
    fileInputAccept = ".pdf,.docx,.txt" ∧
    supportedExtensions = [".pdf", ".docx", ".txt"] ∧
    (handleDrop (some f) st).file = some f ∧
    (handleDrop (some f) st).dragOver = false := by
  exact ⟨rfl, rfl, rfl, rfl⟩

/-- C6, counterexample: in the upload-and-embed flow run under the session
namespace, the first (upload) request carries no query parameters at all —
so it does not use the session namespace, refuting "all requests made
during a session (upload, embed, ask) use that single namespace value". -/
theorem session_namespace_not_on_upload_cex :
    (initNamespace none "uuid-1").1 = "uuid-1" ∧
    ((handleFileUpload none (some ⟨"a.pdf"⟩) (initNamespace none "uuid-1").1
        (.success ⟨"b1"⟩) (.success ⟨true⟩)).requests.map Request.params) =
      [[], [("namespace", "uuid-1")]] := by
  exact ⟨rfl, rfl⟩

/-- C6, amended: the session namespace is created at most once — a fresh
UUID is generated and persisted on first load, every later load reuses the
stored value — and the requests that carry a namespace (embed and ask) use
that single value unchanged; the upload request carries no namespace
parameter. -/
theorem session_namespace_stable (env : Option String) (u nsp : String)
    (f : File) (resp : UploadResponse) (eo : AxiosResult EmbedResponse)
    (st : AskState) (outcome : AxiosResult AskResponse)
    (hns : nsp ≠ "") (hq : st.question ≠ "") :
    initNamespace none u = (u, u) ∧
    initNamespace (some nsp) u = (nsp, nsp) ∧
    (embedRequest env resp.blob_name nsp).params = [("namespace", nsp)] ∧
    (handleFileUpload env (some f) nsp (.success resp) eo).requests.getLast? =
      some (embedRequest env resp.blob_name nsp) ∧
    ("namespace", nsp) ∈ (askRequest env st.question nsp).params ∧
    (handleAsk env nsp st outcome).requests = [askRequest env st.question nsp] := by
  refine ⟨rfl, by simp [initNamespace, hns], rfl, ?_, by simp [askRequest], ?_⟩
  · cases eo <;> rfl
  · cases outcome <;> simp [handleAsk, hq]

/-- C6, witness: the amended theorem at a concrete session. -/
theorem session_namespace_stable_witness :
    ("uuid-2" : String) ≠ "" ∧ ("Q?" : String) ≠ "" ∧
    (initNamespace none "uuid-9" = ("uuid-9", "uuid-9") ∧
      initNamespace (some "uuid-2") "uuid-9" = ("uuid-2", "uuid-2") ∧
      (embedRequest none "b1" "uuid-2").params = [("namespace", "uuid-2")] ∧
      (handleFileUpload none (some ⟨"a.pdf"⟩) "uuid-2" (.success ⟨"b1"⟩)
          (.success ⟨true⟩)).requests.getLast? =
        some (embedRequest none "b1" "uuid-2") ∧
      ("namespace", "uuid-2") ∈ (askRequest none "Q?" "uuid-2").params ∧
      (handleAsk none "uuid-2" ⟨"Q?", "", false⟩ (.failure "x")).requests =
        [askRequest none "Q?" "uuid-2"]) :=
  ⟨by decide, by decide,
    session_namespace_stable none "uuid-9" "uuid-2" ⟨"a.pdf"⟩ ⟨"b1"⟩
      (.success ⟨true⟩) ⟨"Q?", "", false⟩ (.failure "x")
      (by decide) (by decide)⟩

/-- Helper: a string whose first character is `'❌'` followed by anything is
never the success alert, whose first character is `'✅'`. -/
theorem append_ne_of_head_ne (a m b : String)
    (ha : a.data.head? = some '❌') (hb : b.data.head? = some '✅') :
    a ++ m ≠ b := by
  intro h
  have h2 : (a.data ++ m.data).head? = b.data.head? := by
    rw [← String.data_append, h]
  rw [List.head?_append, ha, hb] at h2
  simp [Option.or] at h2

/-- C7. The client reports upload-and-index success exactly when both the
upload request and the embed request succeeded — in the original revision
(the success alert) and in the modern revision (the `success` message) — so
no partial success plus, on every path where either request failed, the
message surfaced is the error message carrying the failure's text, never
silence and never the success message: the final two conjuncts characterise
the surfaced message in all outcome cases. -/
theorem no_partial_success (env : Option String) (f : File) (nsp : String)
    (uo : AxiosResult UploadResponse) (eo : AxiosResult EmbedResponse) :
    ((handleFileUpload env (some f) nsp uo eo).alertMessage =
        some "✅ File uploaded and indexed successfully!" ↔
      (∃ r, uo = .success r) ∧ (∃ u, eo = .success u)) ∧
    ((handleFileUploadM env (some f) nsp uo eo).message =
        some ("success", "File uploaded and indexed successfully!") ↔
      (∃ r, uo = .success r) ∧ (∃ u, eo = .success u)) ∧
    (handleFileUpload env (some f) nsp uo eo).alertMessage =
      (match uo, eo with
        | .failure m, _ => some ("❌ Error uploading or embedding file: " ++ m)
        | .success _, .failure m => some ("❌ Error uploading or embedding file: " ++ m)
        | .success _, .success _ => some "✅ File uploaded and indexed successfully!") ∧
    (handleFileUploadM env (some f) nsp uo eo).message =
      (match uo, eo with
        | .failure m, _ => some ("error", "Error uploading or embedding file: " ++ m)
        | .success _, .failure m => some ("error", "Error uploading or embedding file: " ++ m)
        | .success _, .success _ =>
            some ("success", "File uploaded and indexed successfully!")) := by
  cases uo with
  | failure m =>
      have hne := append_ne_of_head_ne "❌ Error uploading or embedding file: " m
        "✅ File uploaded and indexed successfully!" rfl rfl
      refine ⟨by simp [handleFileUpload, hne], by simp [handleFileUploadM], rfl, rfl⟩
  | success r =>
      cases eo with
      | failure m =>
          have hne := append_ne_of_head_ne "❌ Error uploading or embedding file: " m
            "✅ File uploaded and indexed successfully!" rfl rfl
          refine ⟨by simp [handleFileUpload, hne], by simp [handleFileUploadM], rfl, rfl⟩
      | success u =>
          refine ⟨by simp [handleFileUpload], by simp [handleFileUploadM], rfl, rfl⟩

/-- Registry lookup commutes with flipping the `indexed` flag: after
`setIndexed`, looking the document up finds the same row with
`indexed := true`. -/
theorem findDoc_setIndexed (reg : List RegEntry) (nsp blob : String) :
    findDoc (setIndexed reg nsp blob) nsp blob =
      (findDoc reg nsp blob).map (fun e => { e with indexed := true }) := by
  induction reg with
  | nil => rfl
  | cons e es ih =>
    by_cases h : (e.nspace == nsp && e.blob_name == blob) = true
    · have h2 : (({ e with indexed := true } : RegEntry).nspace == nsp &&
          ({ e with indexed := true } : RegEntry).blob_name == blob) = true := h
      simp [setIndexed, findDoc, h, h2]
    · simp only [setIndexed, List.map_cons, if_neg h, findDoc]
      simpa [setIndexed, h] using ih

/-- C8 (spec-modelled). The Indexing Pipeline is idempotent: if `embed`
succeeds, producing state `s₁`, then invoking it again on the same blob and
namespace is a no-op success that leaves the Registry and the whole Vector
Index — in particular its chunk content — exactly `s₁`. -/
theorem embed_idempotent (extractChunks : String → List String)
    (nsp blob : String) (s s₁ : EngineState)
    (h : embed extractChunks nsp blob s = .ok s₁) :
    embed extractChunks nsp blob s₁ = .ok s₁ := by
  cases hf : findDoc s.registry nsp blob with
  | none => simp [embed, hf] at h
  | some doc =>
    by_cases hi : doc.indexed = true
    · have hs : s = s₁ := by simpa [embed, hf, hi] using h
      subst hs
      simp [embed, hf, hi]
    · have hs : s₁ = { registry := setIndexed s.registry nsp blob
                       vectorIndex := upsertChunks s.vectorIndex nsp
                         doc.document_id (extractChunks blob) } := by
        have h' := h
        simp [embed, hf, hi] at h'
        exact h'.symm
      subst hs
      simp [embed, findDoc_setIndexed, hf]

/-- C8, witness: a one-document registry; the first `embed` indexes two
chunks and the second invocation is a no-op returning the same state. -/
theorem embed_idempotent_witness :
    embed (fun _ => ["alpha", "beta"]) "ns1" "b1"
        { registry := [⟨"ns1", "b1", 7, false⟩], vectorIndex := [] } =
      .ok { registry := [⟨"ns1", "b1", 7, true⟩],
            vectorIndex := [⟨"ns1", 7, 0, "alpha"⟩, ⟨"ns1", 7, 1, "beta"⟩] } ∧
    embed (fun _ => ["alpha", "beta"]) "ns1" "b1"
        { registry := [⟨"ns1", "b1", 7, true⟩],
          vectorIndex := [⟨"ns1", 7, 0, "alpha"⟩, ⟨"ns1", 7, 1, "beta"⟩] } =
      .ok { registry := [⟨"ns1", "b1", 7, true⟩],
            vectorIndex := [⟨"ns1", 7, 0, "alpha"⟩, ⟨"ns1", 7, 1, "beta"⟩] } :=
  ⟨by rfl,
    embed_idempotent (fun _ => ["alpha", "beta"]) "ns1" "b1"
      { registry := [⟨"ns1", "b1", 7, false⟩], vectorIndex := [] }
      { registry := [⟨"ns1", "b1", 7, true⟩],
        vectorIndex := [⟨"ns1", 7, 0, "alpha"⟩, ⟨"ns1", 7, 1, "beta"⟩] }
      (by rfl)⟩

/-- C9, counterexample: with `REACT_APP_API_URL` set to the empty string —
set, but falsy in JavaScript — the base URL is the hardcoded production
Cloud Run URL, not the variable's value `""`, refuting "the value of the
REACT_APP_API_URL environment variable when it is set". -/
theorem empty_env_falls_back_cex :
    API_BASE_URL (some "") = productionUrl ∧ API_BASE_URL (some "") ≠ "" := by
  exact ⟨rfl, by decide⟩

/-- The upload request URL is the base URL followed by `/upload`. -/
theorem uploadRequest_url (env : Option String) (f : File) :
    (uploadRequest env f).url = API_BASE_URL env ++ "/upload" := rfl

/-- The embed request URL is the base URL followed by the encoded path. -/
theorem embedRequest_url (env : Option String) (blob nsp : String) :
    (embedRequest env blob nsp).url =
      API_BASE_URL env ++ ("/api/files/" ++ encodeURIComponent blob ++ "/embed") := by
  simp [embedRequest, String.append_assoc]

/-- The ask request URL is the base URL followed by `/api/ask`. -/
theorem askRequest_url (env : Option String) (q nsp : String) :
    (askRequest env q nsp).url = API_BASE_URL env ++ "/api/ask" := rfl

/-- C9, amended: the base URL is fixed at module load — the value of
`REACT_APP_API_URL` when it is set to a non-empty string, otherwise the
hardcoded production Cloud Run URL (an unset variable and one set to the
empty string both fall back) — and every request either handler issues has
a URL extending that single base. -/
theorem single_base_url (env : Option String) (s nsp : String)
    (file : Option File) (uo : AxiosResult UploadResponse)
    (eo : AxiosResult EmbedResponse) (st : AskState)
    (outcome : AxiosResult AskResponse) (hs : s ≠ "") :
    API_BASE_URL (some s) = s ∧
    API_BASE_URL none = productionUrl ∧
    API_BASE_URL (some "") = productionUrl ∧
    (∀ r ∈ (handleFileUpload env file nsp uo eo).requests ++
        (handleAsk env nsp st outcome).requests,
      ∃ rest, r.url = API_BASE_URL env ++ rest) := by
  refine ⟨by simp [API_BASE_URL, hs], rfl, rfl, ?_⟩
  intro r hr
  rw [List.mem_append] at hr
  rcases hr with hr | hr
  · cases file with
    | none => simp [handleFileUpload] at hr
    | some f =>
      cases uo with
      | failure m =>
          simp [handleFileUpload] at hr
          subst hr
          exact ⟨"/upload", rfl⟩
      | success resp =>
          cases eo with
          | failure m =>
              simp [handleFileUpload] at hr
              rcases hr with hr | hr <;> subst hr
              · exact ⟨"/upload", rfl⟩
              · exact ⟨"/api/files/" ++ encodeURIComponent resp.blob_name ++ "/embed",
                  embedRequest_url env resp.blob_name nsp⟩
          | success u =>
              simp [handleFileUpload] at hr
              rcases hr with hr | hr <;> subst hr
              · exact ⟨"/upload", rfl⟩
              · exact ⟨"/api/files/" ++ encodeURIComponent resp.blob_name ++ "/embed",
                  embedRequest_url env resp.blob_name nsp⟩
  · by_cases hq : st.question = ""
    · simp [handleAsk, hq] at hr
    · cases outcome <;> simp [handleAsk, hq] at hr <;> subst hr <;>
        exact ⟨"/api/ask", rfl⟩

/-- C9, witness: the amended theorem at a local-development base URL and a
concrete upload-then-ask session. -/
theorem single_base_url_witness :
    ("http://localhost:8000" : String) ≠ "" ∧
    (API_BASE_URL (some "http://localhost:8000") = "http://localhost:8000" ∧
      API_BASE_URL none = productionUrl ∧
      API_BASE_URL (some "") = productionUrl ∧
      (∀ r ∈ (handleFileUpload (some "http://localhost:8000") (some ⟨"a.pdf"⟩)
            "ns1" (.success ⟨"b1"⟩) (.success ⟨true⟩)).requests ++
          (handleAsk (some "http://localhost:8000") "ns1" ⟨"Q?", "", false⟩
            (.failure "x")).requests,
        ∃ rest, r.url = API_BASE_URL (some "http://localhost:8000") ++ rest)) :=
  ⟨by decide,
    single_base_url (some "http://localhost:8000") "http://localhost:8000" "ns1"
      (some ⟨"a.pdf"⟩) (.success ⟨"b1"⟩) (.success ⟨true⟩) ⟨"Q?", "", false⟩
      (.failure "x") (by decide)⟩

/-- C10. When the ask request fails, `handleAsk` swallows the error: the
answer state becomes `"Error getting answer: "` followed by the error
message — whatever answer was displayed before — and the `loading` flag is
reset to `false` on the failure path as well as on the success path. -/
theorem ask_failure_handled (env : Option String) (nsp : String) (st : AskState)
    (msg : String) (hq : st.question ≠ "") :
    (handleAsk env nsp st (.failure msg)).answer = "Error getting answer: " ++ msg ∧
    (handleAsk env nsp st (.failure msg)).loading = false ∧
    (∀ resp : AskResponse, (handleAsk env nsp st (.success resp)).loading = false) := by
  refine ⟨?_, ?_, fun resp => ?_⟩ <;> simp [handleAsk, hq]

/-- C10, witness: a failed ask with `"Network Error"` replaces a previously
displayed answer and clears the loading flag. -/
theorem ask_failure_handled_witness :
    ("Q?" : String) ≠ "" ∧
    ((handleAsk none "ns1" ⟨"Q?", "an old answer", true⟩ (.failure "Network Error")).answer =
        "Error getting answer: " ++ "Network Error" ∧
      (handleAsk none "ns1" ⟨"Q?", "an old answer", true⟩ (.failure "Network Error")).loading =
        false ∧
      (∀ resp : AskResponse,
        (handleAsk none "ns1" ⟨"Q?", "an old answer", true⟩ (.success resp)).loading = false)) :=
  ⟨by decide,
    ask_failure_handled none "ns1" ⟨"Q?", "an old answer", true⟩ "Network Error" (by decide)⟩

end DocumentRag
